import Mathlib

/-
Verification of the StripeLens event-analysis core (src/main.py) against its
natural-language specification.

The Python core is shallowly embedded:
  - JSON values (Python parsed-JSON data) are the inductive type Json;
    numeric literals are modelled as integers (the analysis pipeline never
    computes with numbers, so fractional payloads are out of modelled scope).
  - Python dicts are association lists with unique keys in insertion order;
    dict assignment keeps the position of an existing key and appends new
    keys at the end (listSet), exactly as CPython does.
  - Python exceptions are the error side of Except String; an uncaught
    exception escaping analyze_stripe_event is an Except.error result.
  - The single outbound HTTP call is a parameter of type Svc describing what
    the external completion service does for this one request.
  - json.loads and json.dumps(event, indent=2) from the Python standard
    library are re-implemented (jsonLoads, jsonDumps) for the fragment the
    pipeline exercises: objects, arrays, strings with the standard escapes,
    integer numbers, true/false/null, strict-mode control-character
    rejection, last-value-wins duplicate keys. Unicode case mapping and
    float literals are outside the modelled fragment.
-/

namespace StripeLens

/-- JSON values as produced by Python json.loads: None, bools, numbers
(modelled as integers), strings, lists and dicts (association lists in
insertion order with unique keys). -/
inductive Json where
  | null
  | bool (b : Bool)
  | num (n : Int)
  | str (s : String)
  | arr (xs : List Json)
  | obj (kvs : List (String × Json))

/-- First-match association-list lookup: Python dict access on the key. -/
def jAssoc : List (String × Json) → String → Option Json
  | [], _ => none
  | (k0, v0) :: rest, k => if k0 = k then some v0 else jAssoc rest k

/-- Python dict assignment d[k] = v: replace the value at an existing key in
place, or append the new key at the end. -/
def listSet : List (String × Json) → String → Json → List (String × Json)
  | [], k, v => [(k, v)]
  | (k0, v0) :: rest, k, v =>
    if k0 = k then (k0, v) :: rest else (k0, v0) :: listSet rest k v

/-- Key lookup on any JSON value: association lookup on dicts, nothing on
every other shape. -/
def jLookup : Json → String → Option Json
  | .obj kvs, k => jAssoc kvs k
  | _, _ => none

/-- The keys of a dict, in insertion order. -/
def keysList (kvs : List (String × Json)) : List String :=
  kvs.map Prod.fst

/-- Python dict.get(k, default) restricted to dicts; on every other value the
attribute access .get raises AttributeError. -/
def pyGet (v : Json) (k : String) (dflt : Json) : Except String Json :=
  match v with
  | .obj kvs => .ok ((jAssoc kvs k).getD dflt)
  | _ => .error "AttributeError"

/-- Pure get-or-default on a JSON value (the value pyGet returns when it does
not raise). -/
def jGetD (v : Json) (k : String) (dflt : Json) : Json :=
  match v with
  | .obj kvs => (jAssoc kvs k).getD dflt
  | _ => dflt

/- Character-list utilities modelling Python string primitives. -/

/-- Does the needle occur at the start of the haystack? -/
def chStarts : List Char → List Char → Bool
  | [], _ => true
  | _ :: _, [] => false
  | a :: as, b :: bs => a == b && chStarts as bs

/-- Does the needle occur anywhere in the haystack? Models the Python
substring test needle in hay; the empty needle is contained everywhere. -/
def chContains (n : List Char) : List Char → Bool
  | [] => n.isEmpty
  | c :: rest => chStarts n (c :: rest) || chContains n rest

/-- Python substring containment needle in hay on strings. -/
def pySubstr (needle hay : String) : Bool :=
  chContains needle.data hay.data

/-- One pass of Python str.replace: replace every non-overlapping occurrence
of pat (assumed non-empty by both call sites) left to right. The fuel is the
length of the subject, which bounds the number of steps. -/
def replChars : Nat → List Char → List Char → List Char → List Char
  | 0, s, _, _ => s
  | fuel + 1, s, pat, rep =>
    match s with
    | [] => []
    | c :: rest =>
      if chStarts pat s then rep ++ replChars fuel (s.drop pat.length) pat rep
      else c :: replChars fuel rest pat rep

/-- Python str.replace(pat, rep) (both uses in the source have a non-empty
pattern and an empty replacement). -/
def pyReplace (s pat rep : String) : String :=
  String.mk (replChars s.data.length s.data pat.data rep.data)

/-- Python str.strip() whitespace set (the ASCII whitespace characters; the
contents handled by the pipeline are ASCII). -/
def isPyWs (c : Char) : Bool :=
  c == ' ' || c == '\t' || c == '\n' || c == '\r' || c == '\x0b' || c == '\x0c'

/-- Python str.strip(): drop whitespace from both ends. -/
def pyStrip (s : String) : String :=
  String.mk (((s.data.dropWhile isPyWs).reverse.dropWhile isPyWs).reverse)

/-- Python str.lower() for the ASCII range exercised by the pipeline. -/
def pyLower (s : String) : String :=
  String.mk (s.data.map Char.toLower)

/-- Line 147 of main.py: strip markdown code fences anywhere in the model
content, then trim surrounding whitespace. -/
def cleanContent (s : String) : String :=
  pyStrip (pyReplace (pyReplace s "```json" "") "```" "")

/- A re-implementation of Python json.loads for the fragment the pipeline
exercises (see the header comment). -/

/-- JSON inter-token whitespace, exactly the four characters of RFC 8259
that the Python decoder skips. -/
def skipWs : List Char → List Char
  | [] => []
  | c :: rest =>
    if c == ' ' || c == '\t' || c == '\n' || c == '\r' then skipWs rest
    else c :: rest

/-- Value of one hexadecimal digit. -/
def hexDigit (c : Char) : Option Nat :=
  if '0' ≤ c && c ≤ '9' then some (c.toNat - 48)
  else if 'a' ≤ c && c ≤ 'f' then some (c.toNat - 87)
  else if 'A' ≤ c && c ≤ 'F' then some (c.toNat - 55)
  else none

/-- Body of a JSON string after the opening quote, in strict mode: raw
control characters are rejected, the standard escapes and uXXXX escapes are
decoded. Returns the decoded string and the input after the closing quote. -/
def parseStrAux : Nat → List Char → List Char → Option (String × List Char)
  | 0, _, _ => none
  | fuel + 1, acc, cs =>
    match cs with
    | [] => none
    | c :: rest =>
      if c == '"' then some (String.mk acc.reverse, rest)
      else if c == '\\' then
        match rest with
        | [] => none
        | e :: rest2 =>
          if e == '"' then parseStrAux fuel ('"' :: acc) rest2
          else if e == '\\' then parseStrAux fuel ('\\' :: acc) rest2
          else if e == '/' then parseStrAux fuel ('/' :: acc) rest2
          else if e == 'b' then parseStrAux fuel ('\x08' :: acc) rest2
          else if e == 'f' then parseStrAux fuel ('\x0c' :: acc) rest2
          else if e == 'n' then parseStrAux fuel ('\n' :: acc) rest2
          else if e == 'r' then parseStrAux fuel ('\r' :: acc) rest2
          else if e == 't' then parseStrAux fuel ('\t' :: acc) rest2
          else if e == 'u' then
            match rest2 with
            | h1 :: h2 :: h3 :: h4 :: rest3 =>
              match hexDigit h1, hexDigit h2, hexDigit h3, hexDigit h4 with
              | some a, some b, some c2, some d =>
                parseStrAux fuel (Char.ofNat (a * 4096 + b * 256 + c2 * 16 + d) :: acc) rest3
              | _, _, _, _ => none
            | _ => none
          else none
      else if c.toNat < 32 then none
      else parseStrAux fuel (c :: acc) rest

/-- Leading decimal digits of the input and the remainder. -/
def takeDigits : List Char → List Char × List Char
  | [] => ([], [])
  | c :: rest =>
    if c.isDigit then
      let (ds, r) := takeDigits rest
      (c :: ds, r)
    else ([], c :: rest)

/-- Numeric value of a digit run. -/
def digitsToNat (ds : List Char) : Nat :=
  ds.foldl (fun acc c => acc * 10 + (c.toNat - 48)) 0

/-- A JSON integer literal: optional minus sign, then digits without a
redundant leading zero. A following fraction or exponent character makes the
literal a float, which is outside the modelled fragment. -/
def parseNum (cs : List Char) : Option (Json × List Char) :=
  let (neg, cs1) :=
    match cs with
    | '-' :: rest => (true, rest)
    | _ => (false, cs)
  let (ds, rest) := takeDigits cs1
  match ds with
  | [] => none
  | d0 :: dtail =>
    if d0 == '0' && !dtail.isEmpty then none
    else
      match rest with
      | '.' :: _ => none
      | 'e' :: _ => none
      | 'E' :: _ => none
      | _ =>
        let v : Int := Int.ofNat (digitsToNat ds)
        some (.num (if neg then -v else v), rest)

/-- The three states of the recursive-descent decoder: a value, the members
of an object after its opening brace, the items of an array after its opening
bracket. -/
inductive PJob where
  | val (cs : List Char)
  | members (cs : List Char) (acc : List (String × Json)) (first : Bool)
  | items (cs : List Char) (acc : List Json) (first : Bool)

/-- The decoder. The fuel strictly decreases at every recursive call (so the
recursion is structural and computes by reduction); jsonLoads supplies twice
the input length plus two, which is always enough because at least one input
character is consumed for every two calls. Duplicate object keys follow the
CPython dict: the first occurrence keeps its position, the last occurrence
keeps its value. -/
def parseF : Nat → PJob → Option (Json × List Char)
  | 0, _ => none
  | fuel + 1, .val cs =>
    match cs with
    | [] => none
    | c :: rest =>
      if c == Char.ofNat 123 then parseF fuel (.members (skipWs rest) [] true)
      else if c == '[' then parseF fuel (.items (skipWs rest) [] true)
      else if c == '"' then
        match parseStrAux (rest.length + 1) [] rest with
        | some (s, r) => some (.str s, r)
        | none => none
      else if c == 't' then
        match rest with
        | 'r' :: 'u' :: 'e' :: r => some (.bool true, r)
        | _ => none
      else if c == 'f' then
        match rest with
        | 'a' :: 'l' :: 's' :: 'e' :: r => some (.bool false, r)
        | _ => none
      else if c == 'n' then
        match rest with
        | 'u' :: 'l' :: 'l' :: r => some (.null, r)
        | _ => none
      else if c == '-' || c.isDigit then parseNum cs
      else none
  | fuel + 1, .members cs acc first =>
    match cs with
    | [] => none
    | c :: rest =>
      if c == Char.ofNat 125 && first then some (.obj acc, rest)
      else if c == '"' then
        match parseStrAux (rest.length + 1) [] rest with
        | none => none
        | some (key, cs2) =>
          match skipWs cs2 with
          | ':' :: cs3 =>
            match parseF fuel (.val (skipWs cs3)) with
            | none => none
            | some (v, cs4) =>
              match skipWs cs4 with
              | ',' :: cs5 => parseF fuel (.members (skipWs cs5) (listSet acc key v) false)
              | c2 :: cs5 =>
                if c2 == Char.ofNat 125 then some (.obj (listSet acc key v), cs5)
                else none
              | [] => none
          | _ => none
      else none
  | fuel + 1, .items cs acc first =>
    match cs with
    | [] => none
    | c :: _ =>
      if c == ']' && first then some (.arr acc.reverse, cs.tail)
      else
        match parseF fuel (.val cs) with
        | none => none
        | some (v, cs2) =>
          match skipWs cs2 with
          | ',' :: cs3 => parseF fuel (.items (skipWs cs3) (v :: acc) false)
          | ']' :: cs3 => some (.arr (v :: acc).reverse, cs3)
          | _ => none

/-- Python json.loads: one JSON value spanning the whole input up to
surrounding whitespace. -/
def jsonLoads (s : String) : Option Json :=
  match parseF (2 * s.length + 2) (.val (skipWs s.data)) with
  | some (v, rest) => if (skipWs rest).isEmpty then some v else none
  | none => none

/- A re-implementation of Python json.dumps(v, indent=2) for the fragment the
pipeline exercises. -/

/-- Four lowercase hexadecimal digits, as Python uses in uXXXX escapes. -/
def hex4 (n : Nat) : String :=
  let dig := fun (d : Nat) =>
    if d < 10 then Char.ofNat (48 + d) else Char.ofNat (87 + d)
  String.mk [dig (n / 4096 % 16), dig (n / 256 % 16), dig (n / 16 % 16), dig (n % 16)]

/-- Escaping of one character inside a dumped JSON string, with the default
ensure_ascii behaviour: named escapes for the usual controls, uXXXX for the
other control characters and for every non-ASCII character. -/
def escChar (c : Char) : String :=
  if c == '"' then "\\\""
  else if c == '\\' then "\\\\"
  else if c == '\n' then "\\n"
  else if c == '\r' then "\\r"
  else if c == '\t' then "\\t"
  else if c == '\x08' then "\\b"
  else if c == '\x0c' then "\\f"
  else if c.toNat < 32 || c.toNat > 127 then "\\u" ++ hex4 c.toNat
  else String.singleton c

/-- A dumped JSON string with its quotes. -/
def escStr (s : String) : String :=
  "\"" ++ String.join (s.data.map escChar) ++ "\""

/-- A run of spaces for the indent. -/
def spaces (n : Nat) : String :=
  String.mk (List.replicate n ' ')

mutual

/-- Python json.dumps(v, indent=2) at nesting level lvl: empty containers
stay on one line, non-empty containers put every item on its own line
indented two further spaces, items separated by a comma. -/
def jsonDumps : Nat → Json → String
  | _, .null => "null"
  | _, .bool true => "true"
  | _, .bool false => "false"
  | _, .num n => toString n
  | _, .str s => escStr s
  | lvl, .arr xs =>
    match xs with
    | [] => "[]"
    | _ :: _ => "[\n" ++ dumpsItems (lvl + 1) xs ++ "\n" ++ spaces (2 * lvl) ++ "]"
  | lvl, .obj kvs =>
    match kvs with
    | [] => "\x7b\x7d"
    | _ :: _ =>
      "\x7b\n" ++ dumpsPairs (lvl + 1) kvs ++ "\n" ++ spaces (2 * lvl) ++ "\x7d"

/-- The lines of a dumped non-empty array. -/
def dumpsItems : Nat → List Json → String
  | _, [] => ""
  | lvl, [x] => spaces (2 * lvl) ++ jsonDumps lvl x
  | lvl, x :: y :: xs =>
    spaces (2 * lvl) ++ jsonDumps lvl x ++ ",\n" ++ dumpsItems lvl (y :: xs)

/-- The lines of a dumped non-empty object. -/
def dumpsPairs : Nat → List (String × Json) → String
  | _, [] => ""
  | lvl, [(k, v)] => spaces (2 * lvl) ++ escStr k ++ ": " ++ jsonDumps lvl v
  | lvl, (k, v) :: p :: kvs =>
    spaces (2 * lvl) ++ escStr k ++ ": " ++ jsonDumps lvl v ++ ",\n" ++
      dumpsPairs lvl (p :: kvs)

end

mutual

/-- Python repr of a parsed-JSON value, used by f-string interpolation for
non-string values: None/True/False, decimal integers, single-quoted strings
(quote-choice and escaping inside the string are simplified, as the
specified pipeline only interpolates strings), bracketed lists and braced
dicts with comma-space separators. -/
def pyRepr : Json → String
  | .null => "None"
  | .bool true => "True"
  | .bool false => "False"
  | .num n => toString n
  | .str s => "\x27" ++ s ++ "\x27"
  | .arr xs => "[" ++ pyReprItems xs ++ "]"
  | .obj kvs => "\x7b" ++ pyReprPairs kvs ++ "\x7d"

/-- Comma-space separated repr of list items. -/
def pyReprItems : List Json → String
  | [] => ""
  | [x] => pyRepr x
  | x :: y :: xs => pyRepr x ++ ", " ++ pyReprItems (y :: xs)

/-- Comma-space separated repr of dict entries. -/
def pyReprPairs : List (String × Json) → String
  | [] => ""
  | [(k, v)] => "\x27" ++ k ++ "\x27: " ++ pyRepr v
  | (k, v) :: p :: kvs => "\x27" ++ k ++ "\x27: " ++ pyRepr v ++ ", " ++ pyReprPairs (p :: kvs)

end

/-- Python str(v) as used by f-string interpolation: a string interpolates as
itself, every other value through its repr. -/
def fStr : Json → String
  | .str s => s
  | v => pyRepr v

/- The two prompt texts of main.py lines 66 to 110. -/

/-- The system prompt, main.py lines 66 to 76 (a constant). -/
def systemPrompt : String :=
  "You are an expert Stripe technical consultant and business analyst. " ++
  "Your goal is to parse raw JSON webhook events and translate them into " ++
  "clear, actionable insights for a non-technical stakeholder.\n\n" ++
  "RULES:\n" ++
  "1. Output valid JSON ONLY. No markdown, no commentary.\n" ++
  "2. Be concise but specific. Avoid generic advice like \x27check logs\x27.\n" ++
  "3. Derive impact level conservatively: failures/disputes are HIGH, " ++
  "warnings/upcoming invoices are LOW/MEDIUM.\n" ++
  "4. \x27root_cause\x27 should explain the technical reason (e.g., \x27Insufficient funds\x27, \x27Expired card\x27)."

/-- The user prompt template up to the interpolated event type. -/
def uA : String :=
  "\nAnalyze the following Stripe webhook event.\n\nEvent Type: "

/-- The user prompt template between the event type and the payload dump. -/
def uB : String :=
  "\n\nRaw Payload:\n"

/-- The user prompt template between the payload dump and the second
interpolation of the event type inside the output schema. -/
def uC : String :=
  "\n\nOUTPUT INSTRUCTIONS:\n" ++
  "1. \x27summary\x27: Provide a 1-sentence executive summary of what happened.\n" ++
  "2. \x27root_cause\x27: Extract the specific failure code or reason if present (e.g., \x27generic_decline\x27, \x27insufficient_funds\x27). If success, state \"Successful transaction\".\n" ++
  "3. \x27customer_impact_level\x27:\n" ++
  "   - HIGH: Payment failed, dispute created, subscription canceled unexpectedly.\n" ++
  "   - MEDIUM: Payment dispute won, subscription updated.\n" ++
  "   - LOW: Payout paid, invoice created, payment succeeded.\n" ++
  "4. \x27recommended_actions\x27: \n" ++
  "   - Propose 2-3 specific steps.\n" ++
  "   - Example 1: \"Contact customer [email/ID] to update payment method.\"\n" ++
  "   - Example 2: \"Review dispute evidence for charge [ID].\"\n\n" ++
  "Output STRICT JSON matching this schema:\n" ++
  "\x7b\n  \"event_type\": \""

/-- The tail of the user prompt template after the second event type. -/
def uD : String :=
  "\",\n  \"summary\": \"...\",\n  \"root_cause\": \"...\",\n  \"customer_impact_level\": \"low | medium | high\",\n  \"recommended_actions\": [\"...\"]\n\x7d\n"

/-- The user prompt of main.py lines 82 to 110: the template with the
rendered event type interpolated twice and the full payload dumped with
indent 2 in between. -/
def userPrompt (et : String) (event : Json) : String :=
  uA ++ et ++ uB ++ jsonDumps 0 event ++ uC ++ et ++ uD

/- Models of the remaining Python operations the analyzer applies to values
of unknown shape. -/

/-- Python membership needle in v for a string needle: substring test on
strings, element equality on lists, key membership on dicts, TypeError on
None, booleans and numbers. -/
def pyContainsIn (needle : String) : Json → Except String Bool
  | .str s => .ok (pySubstr needle s)
  | .arr xs =>
    .ok (xs.any fun j =>
      match j with
      | .str t => t == needle
      | _ => false)
  | .obj kvs => .ok ((jAssoc kvs needle).isSome)
  | _ => .error "TypeError"

/-- Python subscription v[k] with a string key: dict lookup (KeyError when
absent), TypeError on every other shape. -/
def pyGetItem (v : Json) (k : String) : Except String Json :=
  match v with
  | .obj kvs =>
    match jAssoc kvs k with
    | some x => .ok x
    | none => .error "KeyError"
  | _ => .error "TypeError"

/-- Python assignment v[k] = x with a string key: dict update, TypeError on
every other shape. -/
def pySetItem (v : Json) (k : String) (x : Json) : Except String Json :=
  match v with
  | .obj kvs => .ok (.obj (listSet kvs k x))
  | _ => .error "TypeError"

/-- Python v.lower(): defined on strings, AttributeError elsewhere. -/
def pyLowerJ : Json → Except String Json
  | .str s => .ok (.str (pyLower s))
  | _ => .error "AttributeError"

/- The analyzer, main.py lines 50 to 178. -/

/-- What the external completion service does for the single outbound
request: the connection fails or times out (client.post raises), the
response is non-2xx (raise_for_status raises), the response body is not the
expected choices[0].message.content string shape (extraction raises), or a
content string is successfully extracted. -/
inductive Svc where
  | transportError
  | httpError
  | badStructure
  | content (s : String)

/-- Python falsiness of the configured API key: the environment variable is
unset (None) or set to the empty string. -/
def keyFalsy : Option String → Bool
  | none => true
  | some s => s == ""

/-- Metadata extraction, main.py lines 56 to 61. It runs before the try
block, so any exception it raises propagates out of analyze_stripe_event. -/
def extractMeta (event : Json) :
    Except String (Json × Json × Json × Json) :=
  match pyGet event "type" (.str "unknown_type") with
  | .error m => .error m
  | .ok event_type =>
    match pyGet event "data" (.obj []) with
    | .error m => .error m
    | .ok dataField =>
      match pyGet dataField "object" (.obj []) with
      | .error m => .error m
      | .ok data_object =>
        match pyGet data_object "id" (.str "unknown_id") with
        | .error m => .error m
        | .ok object_id => .ok (event_type, dataField, data_object, object_id)

/-- Normalised validation of the impact level, main.py lines 151 to 155:
when the parsed result contains the key, lower-case its value in place, then
overwrite it with medium when the lowered value is outside the closed
enumeration. -/
def normalizeImpact (parsed : Json) : Except String Json :=
  match pyContainsIn "customer_impact_level" parsed with
  | .error m => .error m
  | .ok c =>
    if c then
      match pyGetItem parsed "customer_impact_level" with
      | .error m => .error m
      | .ok v =>
        match pyLowerJ v with
        | .error m => .error m
        | .ok lv =>
          match pySetItem parsed "customer_impact_level" lv with
          | .error m => .error m
          | .ok p1 =>
            match pyGetItem p1 "customer_impact_level" with
            | .error m => .error m
            | .ok v1 =>
              let valid :=
                match v1 with
                | .str s => s == "low" || s == "medium" || s == "high"
                | _ => false
              if valid then .ok p1
              else pySetItem p1 "customer_impact_level" (.str "medium")
    else .ok parsed

/-- The try block, main.py lines 129 to 157: the missing-key guard, the
single outbound request, response cleanup, json.loads and impact
normalisation. An error value is the exception the except-branch catches. -/
def tryBody (apiKey : Option String) (svc : Svc) : Except String Json :=
  if keyFalsy apiKey then .error "ValueError: Missing API Key"
  else
    match svc with
    | .transportError => .error "httpx.RequestError"
    | .httpError => .error "httpx.HTTPStatusError"
    | .badStructure => .error "response shape error"
    | .content s =>
      match jsonLoads (cleanContent s) with
      | none => .error "json.JSONDecodeError"
      | some parsed => normalizeImpact parsed

/-- One fallback response dict, main.py lines 171 to 177, for a given
computed impact. -/
def mkFb (event_type : Json) (impact : String) (called : Bool) :
    Except String (Json × Bool) :=
  .ok (.obj [
    ("event_type", event_type),
    ("summary", .str ("Received event " ++ fStr event_type ++ ". Automated analysis unavailable.")),
    ("root_cause", .str "N/A (LLM unavailable)"),
    ("customer_impact_level", .str impact),
    ("recommended_actions", .arr [.str "Check Stripe Dashboard manually."])], called)

/-- The except branch, main.py lines 159 to 178: the risk-level mapping by
substring tests on the extracted event type, first match wins, followed by
construction of the fallback response. The membership tests run inside the
except handler, so an exception they raise propagates out. -/
def fallbackBranch (event_type : Json) (called : Bool) :
    Except String (Json × Bool) :=
  match pyContainsIn "payment_failed" event_type with
  | .error m => .error m
  | .ok b1 =>
    if b1 then mkFb event_type "high" called
    else
      match pyContainsIn "dispute" event_type with
      | .error m => .error m
      | .ok b2 =>
        if b2 then mkFb event_type "high" called
        else
          match pyContainsIn "invoice.upcoming" event_type with
          | .error m => .error m
          | .ok b3 =>
            if b3 then mkFb event_type "low" called
            else mkFb event_type "medium" called

/-- main.py analyze_stripe_event: metadata extraction and prompt
construction (outside the try block), then the guarded external call with
its uniform except-to-fallback routing. The boolean of the result records
whether the outbound HTTP request was issued (client.post reached). An
error value is an exception propagating to the caller. -/
def analyze_stripe_event (apiKey : Option String) (svc : Svc) (event : Json) :
    Except String (Json × Bool) :=
  match extractMeta event with
  | .error m => .error m
  | .ok (event_type, _dataField, _data_object, _object_id) =>
    let _sys : String := systemPrompt
    let _usr : String := userPrompt (fStr event_type) event
    let called := !keyFalsy apiKey
    match tryBody apiKey svc with
    | .ok parsed => .ok (parsed, called)
    | .error _ => fallbackBranch event_type called

/- Spec-side derived forms used to state the claims. -/

/-- The extracted event type: the type field of the event, or the sentinel
when it is absent (the value pyGet returns when it does not raise). -/
def eventTypeOf (e : Json) : Json :=
  jGetD e "type" (.str "unknown_type")

/-- The extracted data field, defaulting to an empty dict. -/
def dataOf (e : Json) : Json :=
  jGetD e "data" (.obj [])

/-- The extracted data.object, defaulting to an empty dict. -/
def dataObjectOf (e : Json) : Json :=
  jGetD (dataOf e) "object" (.obj [])

/-- The extracted reference id, defaulting to its sentinel. -/
def objectIdOf (e : Json) : Json :=
  jGetD (dataObjectOf e) "id" (.str "unknown_id")

/-- The extracted event type as a string (meaningful under typeOk). -/
def typeStrOf (e : Json) : String :=
  match eventTypeOf e with
  | .str s => s
  | _ => ""

/-- Is an optional field value absent or a dict? -/
def shapeOk : Option Json → Bool
  | none => true
  | some (.obj _) => true
  | some _ => false

/-- Does metadata extraction complete without raising: the event is a dict
whose data field, when present, is a dict, and whose data.object, when
present, is a dict. -/
def extractOk : Json → Bool
  | .obj kvs =>
    shapeOk (jAssoc kvs "data") &&
      (match (jAssoc kvs "data").getD (.obj []) with
       | .obj dkvs => shapeOk (jAssoc dkvs "object")
       | _ => false)
  | _ => false

/-- Is the type field absent or a string (the shape the fallback path can
classify without raising)? -/
def typeOk : Json → Bool
  | .obj kvs =>
    match jAssoc kvs "type" with
    | none => true
    | some (.str _) => true
    | some _ => false
  | _ => false

/-- A well-shaped webhook event: extraction completes and the type field is
absent or a string. -/
def wellShaped (e : Json) : Bool :=
  extractOk e && typeOk e

/-- The deterministic fallback impact classification of section 4.3 of the
spec, as a pure function of the event type string. -/
def fallbackImpact (t : String) : String :=
  if pySubstr "payment_failed" t then "high"
  else if pySubstr "dispute" t then "high"
  else if pySubstr "invoice.upcoming" t then "low"
  else "medium"

/-- The full fallback analysis result for a string event type. -/
def fallbackResult (t : String) : Json :=
  .obj [
    ("event_type", .str t),
    ("summary", .str ("Received event " ++ t ++ ". Automated analysis unavailable.")),
    ("root_cause", .str "N/A (LLM unavailable)"),
    ("customer_impact_level", .str (fallbackImpact t)),
    ("recommended_actions", .arr [.str "Check Stripe Dashboard manually."])]

/-- Did an Except-valued step complete without an exception? -/
def isOkE {α : Type} : Except String α → Bool
  | .ok _ => true
  | .error _ => false

/- Lemmas about the embedded operations. -/

theorem jAssoc_listSet_self (kvs : List (String × Json)) (k : String) (v : Json) :
    jAssoc (listSet kvs k v) k = some v := by
  induction kvs with
  | nil => simp [listSet, jAssoc]
  | cons hd tl ih =>
    obtain ⟨k0, v0⟩ := hd
    by_cases h : k0 = k <;> simp [listSet, jAssoc, h, ih]

theorem jAssoc_listSet_ne (kvs : List (String × Json)) (k k2 : String) (v : Json)
    (h : k2 ≠ k) : jAssoc (listSet kvs k v) k2 = jAssoc kvs k2 := by
  induction kvs with
  | nil => simp [listSet, jAssoc, Ne.symm h]
  | cons hd tl ih =>
    obtain ⟨k0, v0⟩ := hd
    by_cases h0 : k0 = k
    · have hne : ¬k0 = k2 := by rw [h0]; exact Ne.symm h
      simp [listSet, jAssoc, h0, hne, Ne.symm h]
    · by_cases h2 : k0 = k2 <;> simp [listSet, jAssoc, h0, h2, ih, h]

theorem keysList_listSet (kvs : List (String × Json)) (k : String) (v : Json)
    (h : (jAssoc kvs k).isSome = true) :
    keysList (listSet kvs k v) = keysList kvs := by
  induction kvs with
  | nil => simp [jAssoc] at h
  | cons hd tl ih =>
    obtain ⟨k0, v0⟩ := hd
    by_cases h0 : k0 = k
    · simp [listSet, keysList, h0]
    · simp [jAssoc, h0] at h
      simp [listSet, keysList, h0] at ih ⊢
      exact ih h

theorem jAssoc_isSome_listSet (kvs : List (String × Json)) (k k2 : String) (v : Json) :
    (jAssoc (listSet kvs k v) k2).isSome = ((jAssoc kvs k2).isSome || (k2 = k : Bool)) := by
  by_cases h : k2 = k
  · subst h
    simp [jAssoc_listSet_self]
  · simp [jAssoc_listSet_ne kvs k k2 v h, h]

theorem extractMeta_ok (e : Json) (h : extractOk e = true) :
    extractMeta e = .ok (eventTypeOf e, dataOf e, dataObjectOf e, objectIdOf e) := by
  cases e with
  | obj kvs =>
    simp only [extractOk, Bool.and_eq_true] at h
    obtain ⟨h1, h2⟩ := h
    cases hd : jAssoc kvs "data" with
    | none =>
      simp [extractMeta, pyGet, eventTypeOf, dataOf, dataObjectOf, objectIdOf, jGetD, hd, jAssoc]
    | some dv =>
      rw [hd] at h1 h2
      cases dv with
      | obj dkvs =>
        have h2x : shapeOk (jAssoc dkvs "object") = true := h2
        cases ho : jAssoc dkvs "object" with
        | none =>
          simp [extractMeta, pyGet, eventTypeOf, dataOf, dataObjectOf, objectIdOf, jGetD, hd, ho, jAssoc]
        | some ov =>
          rw [ho] at h2x
          cases ov with
          | obj okvs =>
            simp [extractMeta, pyGet, eventTypeOf, dataOf, dataObjectOf, objectIdOf, jGetD, hd, ho]
          | null => simp [shapeOk] at h2x
          | bool b => simp [shapeOk] at h2x
          | num n => simp [shapeOk] at h2x
          | str s => simp [shapeOk] at h2x
          | arr xs => simp [shapeOk] at h2x
      | null => simp [shapeOk] at h1
      | bool b => simp [shapeOk] at h1
      | num n => simp [shapeOk] at h1
      | str s => simp [shapeOk] at h1
      | arr xs => simp [shapeOk] at h1
  | null => simp [extractOk] at h
  | bool b => simp [extractOk] at h
  | num n => simp [extractOk] at h
  | str s => simp [extractOk] at h
  | arr xs => simp [extractOk] at h

theorem analyze_split (apiKey : Option String) (svc : Svc) (e : Json)
    (h : extractOk e = true) :
    analyze_stripe_event apiKey svc e =
      match tryBody apiKey svc with
      | .ok parsed => .ok (parsed, !keyFalsy apiKey)
      | .error _ => fallbackBranch (eventTypeOf e) (!keyFalsy apiKey) := by
  unfold analyze_stripe_event
  rw [extractMeta_ok e h]

theorem eventTypeOf_str (e : Json) (h : typeOk e = true) :
    eventTypeOf e = .str (typeStrOf e) := by
  cases e with
  | obj kvs =>
    cases ht : jAssoc kvs "type" with
    | none => simp [eventTypeOf, typeStrOf, jGetD, ht]
    | some v =>
      cases v with
      | str s => simp [eventTypeOf, typeStrOf, jGetD, ht]
      | null => simp [typeOk, ht] at h
      | bool b => simp [typeOk, ht] at h
      | num n => simp [typeOk, ht] at h
      | arr xs => simp [typeOk, ht] at h
      | obj o => simp [typeOk, ht] at h
  | null => simp [typeOk] at h
  | bool b => simp [typeOk] at h
  | num n => simp [typeOk] at h
  | str s => simp [typeOk] at h
  | arr xs => simp [typeOk] at h

theorem fallbackBranch_str (t : String) (c : Bool) :
    fallbackBranch (.str t) c = .ok (fallbackResult t, c) := by
  unfold fallbackBranch fallbackResult fallbackImpact mkFb pyContainsIn fStr
  by_cases h1 : pySubstr "payment_failed" t <;>
    by_cases h2 : pySubstr "dispute" t <;>
      by_cases h3 : pySubstr "invoice.upcoming" t <;>
        simp [h1, h2, h3]

theorem normalizeImpact_obj (kvs : List (String × Json)) :
    normalizeImpact (.obj kvs) =
      match jAssoc kvs "customer_impact_level" with
      | none => .ok (.obj kvs)
      | some (.str s0) =>
        if pyLower s0 == "low" || pyLower s0 == "medium" || pyLower s0 == "high"
        then .ok (.obj (listSet kvs "customer_impact_level" (.str (pyLower s0))))
        else .ok (.obj (listSet (listSet kvs "customer_impact_level" (.str (pyLower s0)))
            "customer_impact_level" (.str "medium")))
      | some _ => .error "AttributeError" := by
  cases hk : jAssoc kvs "customer_impact_level" with
  | none => simp [normalizeImpact, pyContainsIn, hk]
  | some v0 =>
    cases v0 with
    | str s0 =>
      by_cases hval : (pyLower s0 == "low" || pyLower s0 == "medium" || pyLower s0 == "high") = true <;>
        simp [normalizeImpact, pyContainsIn, pyGetItem, pyLowerJ, pySetItem, hk,
          jAssoc_listSet_self, hval]
    | null => simp [normalizeImpact, pyContainsIn, pyGetItem, pyLowerJ, hk]
    | bool b => simp [normalizeImpact, pyContainsIn, pyGetItem, pyLowerJ, hk]
    | num n => simp [normalizeImpact, pyContainsIn, pyGetItem, pyLowerJ, hk]
    | arr xs => simp [normalizeImpact, pyContainsIn, pyGetItem, pyLowerJ, hk]
    | obj o => simp [normalizeImpact, pyContainsIn, pyGetItem, pyLowerJ, hk]

theorem normalizeImpact_valid (p r : Json) (hr : normalizeImpact p = .ok r)
    (v : Json) (hv : jLookup r "customer_impact_level" = some v) :
    v = .str "low" ∨ v = .str "medium" ∨ v = .str "high" := by
  cases p with
  | null => simp [normalizeImpact, pyContainsIn] at hr
  | bool b => simp [normalizeImpact, pyContainsIn] at hr
  | num n => simp [normalizeImpact, pyContainsIn] at hr
  | str s =>
    by_cases hc : pySubstr "customer_impact_level" s
    · simp [normalizeImpact, pyContainsIn, pyGetItem, hc] at hr
    · simp [normalizeImpact, pyContainsIn, hc] at hr
      rw [← hr] at hv
      simp [jLookup] at hv
  | arr xs =>
    by_cases hc : (xs.any fun j =>
        match j with
        | .str t => t == "customer_impact_level"
        | _ => false) = true
    · simp [normalizeImpact, pyContainsIn, pyGetItem, hc] at hr
    · simp [normalizeImpact, pyContainsIn, hc] at hr
      rw [← hr] at hv
      simp [jLookup] at hv
  | obj kvs =>
    rw [normalizeImpact_obj] at hr
    cases hk : jAssoc kvs "customer_impact_level" with
    | none =>
      rw [hk] at hr
      simp at hr
      rw [← hr] at hv
      simp [jLookup, hk] at hv
    | some v0 =>
      rw [hk] at hr
      cases v0 with
      | str s0 =>
        by_cases hval : (pyLower s0 == "low" || pyLower s0 == "medium" || pyLower s0 == "high") = true
        · have hval2 := hval
          simp only [Bool.or_eq_true, beq_iff_eq] at hval2
          simp [hval] at hr
          rw [← hr] at hv
          have hv2 : jAssoc (listSet kvs "customer_impact_level" (Json.str (pyLower s0)))
              "customer_impact_level" = some v := hv
          rw [jAssoc_listSet_self] at hv2
          injection hv2 with hv3
          subst hv3
          cases hval2 with
          | inl h2 =>
            cases h2 with
            | inl h => exact Or.inl (by rw [h])
            | inr h => exact Or.inr (Or.inl (by rw [h]))
          | inr h => exact Or.inr (Or.inr (by rw [h]))
        · simp [hval] at hr
          rw [← hr] at hv
          have hv2 : jAssoc (listSet (listSet kvs "customer_impact_level" (Json.str (pyLower s0)))
              "customer_impact_level" (Json.str "medium")) "customer_impact_level" = some v := hv
          rw [jAssoc_listSet_self] at hv2
          injection hv2 with hv3
          subst hv3
          exact Or.inr (Or.inl rfl)
      | null => simp at hr
      | bool b => simp at hr
      | num n => simp at hr
      | arr xs => simp at hr
      | obj o => simp at hr

theorem tryBody_ok (apiKey : Option String) (svc : Svc) (parsed : Json)
    (h : tryBody apiKey svc = .ok parsed) :
    keyFalsy apiKey = false ∧
      ∃ s p, svc = .content s ∧ jsonLoads (cleanContent s) = some p ∧
        normalizeImpact p = .ok parsed := by
  by_cases hk : keyFalsy apiKey
  · simp [tryBody, hk] at h
  · refine ⟨by simp [hk], ?_⟩
    cases svc with
    | transportError => simp [tryBody, hk] at h
    | httpError => simp [tryBody, hk] at h
    | badStructure => simp [tryBody, hk] at h
    | content s =>
      cases hl : jsonLoads (cleanContent s) with
      | none => simp [tryBody, hk, hl] at h
      | some p =>
        simp [tryBody, hk, hl] at h
        exact ⟨s, p, rfl, hl, h⟩

theorem tryBody_error_of_falsy (apiKey : Option String) (svc : Svc)
    (hk : keyFalsy apiKey = true) :
    tryBody apiKey svc = .error "ValueError: Missing API Key" := by
  simp [tryBody, hk]

theorem fallbackBranch_ok_impact (et : Json) (c : Bool) (r : Json) (b : Bool)
    (h : fallbackBranch et c = .ok (r, b)) (v : Json)
    (hv : jLookup r "customer_impact_level" = some v) :
    v = .str "low" ∨ v = .str "medium" ∨ v = .str "high" := by
  cases h1 : pyContainsIn "payment_failed" et with
  | error m => simp [fallbackBranch, h1] at h
  | ok b1 =>
    cases b1 with
    | true =>
      simp [fallbackBranch, h1, mkFb] at h
      obtain ⟨h3, h4⟩ := h
      subst h3
      have hv2 : some (Json.str "high") = some v := hv
      injection hv2 with hv3
      exact Or.inr (Or.inr hv3.symm)
    | false =>
      cases h2 : pyContainsIn "dispute" et with
      | error m => simp [fallbackBranch, h1, h2] at h
      | ok b2 =>
        cases b2 with
        | true =>
          simp [fallbackBranch, h1, h2, mkFb] at h
          obtain ⟨h3, h4⟩ := h
          subst h3
          have hv2 : some (Json.str "high") = some v := hv
          injection hv2 with hv3
          exact Or.inr (Or.inr hv3.symm)
        | false =>
          cases h5 : pyContainsIn "invoice.upcoming" et with
          | error m => simp [fallbackBranch, h1, h2, h5] at h
          | ok b3 =>
            cases b3 with
            | true =>
              simp [fallbackBranch, h1, h2, h5, mkFb] at h
              obtain ⟨h3, h4⟩ := h
              subst h3
              have hv2 : some (Json.str "low") = some v := hv
              injection hv2 with hv3
              exact Or.inl hv3.symm
            | false =>
              simp [fallbackBranch, h1, h2, h5, mkFb] at h
              obtain ⟨h3, h4⟩ := h
              subst h3
              have hv2 : some (Json.str "medium") = some v := hv
              injection hv2 with hv3
              exact Or.inr (Or.inl hv3.symm)

theorem chStarts_self_append (n b : List Char) : chStarts n (n ++ b) = true := by
  induction n with
  | nil => simp [chStarts]
  | cons c cs ih => simp [chStarts, ih]

theorem chContains_here (n b : List Char) : chContains n (n ++ b) = true := by
  cases n with
  | nil =>
    cases b with
    | nil => simp [chContains]
    | cons c bs => simp [chContains, chStarts]
  | cons c cs =>
    simp only [chContains, Bool.or_eq_true]
    exact Or.inl (chStarts_self_append (c :: cs) b)

theorem chContains_append_left (a h n : List Char) (hc : chContains n h = true) :
    chContains n (a ++ h) = true := by
  induction a with
  | nil => simpa using hc
  | cons c as ih =>
    simp only [List.cons_append, chContains, Bool.or_eq_true]
    exact Or.inr ih

/- The claims. -/

/-- Claim C5 (confirmed): for every string event type, whenever the try
block fails (any failure, including a missing key), analyze_stripe_event
returns the fallback result whose impact is computed by first-match-wins
substring containment in the order payment_failed (high), dispute (high),
invoice.upcoming (low), default medium, a pure function of the type
string. -/
theorem c5_fallback_classifier (t : String) (apiKey : Option String) (svc : Svc)
    (e : Json) (he : wellShaped e = true) (ht : eventTypeOf e = .str t)
    (hf : isOkE (tryBody apiKey svc) = false) :
    analyze_stripe_event apiKey svc e = .ok (fallbackResult t, !keyFalsy apiKey) ∧
    jLookup (fallbackResult t) "customer_impact_level" = some (.str (fallbackImpact t)) ∧
    (pySubstr "payment_failed" t = true → fallbackImpact t = "high") ∧
    (pySubstr "payment_failed" t = false → pySubstr "dispute" t = true →
      fallbackImpact t = "high") ∧
    (pySubstr "payment_failed" t = false → pySubstr "dispute" t = false →
      pySubstr "invoice.upcoming" t = true → fallbackImpact t = "low") ∧
    (pySubstr "payment_failed" t = false → pySubstr "dispute" t = false →
      pySubstr "invoice.upcoming" t = false → fallbackImpact t = "medium") := by
  have hw := he
  simp only [wellShaped, Bool.and_eq_true] at hw
  obtain ⟨hex, hty⟩ := hw
  refine ⟨?_, rfl, ?_, ?_, ?_, ?_⟩
  · cases htb : tryBody apiKey svc with
    | ok p => rw [htb] at hf; simp [isOkE] at hf
    | error m =>
      have h1 := analyze_split apiKey svc e hex
      rw [htb] at h1
      have h2 : analyze_stripe_event apiKey svc e =
          fallbackBranch (eventTypeOf e) (!keyFalsy apiKey) := h1
      rw [h2, ht, fallbackBranch_str]
  · intro h1
    simp [fallbackImpact, h1]
  · intro h1 h2
    simp [fallbackImpact, h1, h2]
  · intro h1 h2 h3
    simp [fallbackImpact, h1, h2, h3]
  · intro h1 h2 h3
    simp [fallbackImpact, h1, h2, h3]

theorem c5_fallback_classifier_witness :
    analyze_stripe_event none .transportError (.obj [("type", .str "charge.dispute.created")]) =
      .ok (fallbackResult "charge.dispute.created", !keyFalsy none) ∧
    jLookup (fallbackResult "charge.dispute.created") "customer_impact_level" =
      some (.str (fallbackImpact "charge.dispute.created")) ∧
    (pySubstr "payment_failed" "charge.dispute.created" = true →
      fallbackImpact "charge.dispute.created" = "high") ∧
    (pySubstr "payment_failed" "charge.dispute.created" = false →
      pySubstr "dispute" "charge.dispute.created" = true →
      fallbackImpact "charge.dispute.created" = "high") ∧
    (pySubstr "payment_failed" "charge.dispute.created" = false →
      pySubstr "dispute" "charge.dispute.created" = false →
      pySubstr "invoice.upcoming" "charge.dispute.created" = true →
      fallbackImpact "charge.dispute.created" = "low") ∧
    (pySubstr "payment_failed" "charge.dispute.created" = false →
      pySubstr "dispute" "charge.dispute.created" = false →
      pySubstr "invoice.upcoming" "charge.dispute.created" = false →
      fallbackImpact "charge.dispute.created" = "medium") :=
  c5_fallback_classifier "charge.dispute.created" none .transportError
    (.obj [("type", .str "charge.dispute.created")]) (by decide) rfl rfl

/-- Claim C6 counterexample: the missing-key short circuit does not return a
fallback result for every event: with no key configured, an event whose type
field is a number reaches the except handler, where the membership test
payment_failed in event_type raises a TypeError that propagates to the
caller, so no AnalysisResult is returned at all. -/
theorem c6_cex_nonstring_type_raises_in_handler :
    keyFalsy none = true ∧
    analyze_stripe_event none .transportError (.obj [("type", Json.num 5)]) =
      .error "TypeError" := ⟨rfl, rfl⟩

/-- Claim C6 (corrected): with a falsy API key (unset or empty), for every
well-shaped event and every behaviour of the external service,
analyze_stripe_event issues no outbound request (the request flag of the
result is false) and returns exactly the fallback result for the extracted
event type. For ill-shaped events the claim fails even with no key: the
extraction or the except-handler membership test raises instead (see the
counterexample). -/
theorem c6_missing_key_short_circuit (apiKey : Option String) (svc : Svc) (e : Json)
    (hk : keyFalsy apiKey = true) (he : wellShaped e = true) :
    analyze_stripe_event apiKey svc e = .ok (fallbackResult (typeStrOf e), false) := by
  have hw := he
  simp only [wellShaped, Bool.and_eq_true] at hw
  obtain ⟨hex, hty⟩ := hw
  have h1 := analyze_split apiKey svc e hex
  rw [tryBody_error_of_falsy apiKey svc hk] at h1
  have h2 : analyze_stripe_event apiKey svc e =
      fallbackBranch (eventTypeOf e) (!keyFalsy apiKey) := h1
  rw [h2, eventTypeOf_str e hty, fallbackBranch_str, hk]
  rfl

theorem c6_missing_key_short_circuit_witness :
    analyze_stripe_event none .badStructure (.obj [("type", .str "invoice.payment_failed")]) =
      .ok (fallbackResult (typeStrOf (.obj [("type", .str "invoice.payment_failed")])), false) :=
  c6_missing_key_short_circuit none .badStructure
    (.obj [("type", .str "invoice.payment_failed")]) rfl (by decide)

/-- Claim C7 (confirmed): for the scenario-A event with the external service
unreachable, analyze_stripe_event returns exactly the fallback response with
event_type invoice.payment_failed, the template summary mentioning that type
and that automated analysis is unavailable, root_cause the LLM-unavailable
marker, impact high, and the single manual-check recommended action. -/
theorem c7_scenario_a_payment_failed :
    analyze_stripe_event (some "sk-test") .transportError
      (.obj [("type", .str "invoice.payment_failed"),
             ("data", .obj [("object", .obj [("id", .str "in_12345")])])]) =
      .ok (.obj [
        ("event_type", .str "invoice.payment_failed"),
        ("summary", .str "Received event invoice.payment_failed. Automated analysis unavailable."),
        ("root_cause", .str "N/A (LLM unavailable)"),
        ("customer_impact_level", .str "high"),
        ("recommended_actions", .arr [.str "Check Stripe Dashboard manually."])], true) := rfl

/-- Claim C1 counterexample: on the success path the returned event_type is
whatever the parsed model output carries. With input event of type
unknown_type and the service returning an object naming a different
event_type, the round trip fails. -/
theorem c1_cex_success_path_event_type :
    analyze_stripe_event (some "k")
        (.content "\x7b\"event_type\": \"other\"\x7d") (.obj []) =
      .ok (.obj [("event_type", .str "other")], true) ∧
    eventTypeOf (.obj []) = .str "unknown_type" ∧
    (("other" : String) == "unknown_type") = false := ⟨rfl, rfl, rfl⟩

/-- Claim C1 (corrected): the event_type round trip holds on the fallback
path: for every well-shaped event, whenever the try block fails, the result
is the fallback response whose event_type equals the extracted input type
(the type field, or its sentinel when absent). On the success path the
result is the parsed model output, whose event_type may differ or be absent
(see the counterexample). -/
theorem c1_event_type_roundtrip_fallback (apiKey : Option String) (svc : Svc)
    (e : Json) (he : wellShaped e = true)
    (hf : isOkE (tryBody apiKey svc) = false) :
    analyze_stripe_event apiKey svc e =
      .ok (fallbackResult (typeStrOf e), !keyFalsy apiKey) ∧
    jLookup (fallbackResult (typeStrOf e)) "event_type" = some (eventTypeOf e) := by
  have hw := he
  simp only [wellShaped, Bool.and_eq_true] at hw
  obtain ⟨hex, hty⟩ := hw
  constructor
  · cases htb : tryBody apiKey svc with
    | ok p => rw [htb] at hf; simp [isOkE] at hf
    | error m =>
      have h1 := analyze_split apiKey svc e hex
      rw [htb] at h1
      have h2 : analyze_stripe_event apiKey svc e =
          fallbackBranch (eventTypeOf e) (!keyFalsy apiKey) := h1
      rw [h2, eventTypeOf_str e hty, fallbackBranch_str]
  · rw [eventTypeOf_str e hty]
    rfl

theorem c1_event_type_roundtrip_fallback_witness :
    analyze_stripe_event (some "k") .httpError (.obj []) =
      .ok (fallbackResult (typeStrOf (.obj [])), !keyFalsy (some "k")) ∧
    jLookup (fallbackResult (typeStrOf (.obj []))) "event_type" =
      some (eventTypeOf (.obj [])) :=
  c1_event_type_roundtrip_fallback (some "k") .httpError (.obj []) (by decide) rfl

/-- Claim C2 counterexample: when the service succeeds with a parsed object
that omits customer_impact_level, the returned result has no
customer_impact_level at all, so the result does not carry one of the three
enumeration values. -/
theorem c2_cex_impact_key_absent :
    analyze_stripe_event (some "k") (.content "\x7b\x7d") (.obj []) =
      .ok (.obj [], true) ∧
    jLookup (.obj []) "customer_impact_level" = none := ⟨rfl, rfl⟩

/-- Claim C2 (corrected): whenever analyze_stripe_event returns a result that
carries a customer_impact_level, that value is one of exactly low, medium,
high, and an out-of-enumeration observed value such as Critical is coerced
to medium rather than rejected; the key can however be absent altogether
when the parsed model output omits it (see the counterexample). -/
theorem c2_impact_closed_when_present :
    (∀ (apiKey : Option String) (svc : Svc) (e : Json) (r : Json) (called : Bool)
      (v : Json),
      analyze_stripe_event apiKey svc e = .ok (r, called) →
      jLookup r "customer_impact_level" = some v →
      v = .str "low" ∨ v = .str "medium" ∨ v = .str "high") ∧
    analyze_stripe_event (some "k")
        (.content "\x7b\"customer_impact_level\": \"Critical\"\x7d") (.obj []) =
      .ok (.obj [("customer_impact_level", .str "medium")], true) := by
  constructor
  · intro apiKey svc e r called v h hv
    cases hm : extractMeta e with
    | error m =>
      have hz : analyze_stripe_event apiKey svc e = .error m := by
        unfold analyze_stripe_event
        rw [hm]
      rw [hz] at h
      exact absurd h (by simp)
    | ok meta =>
      obtain ⟨et, df, dobj, oid⟩ := meta
      have hsplit : analyze_stripe_event apiKey svc e =
          match tryBody apiKey svc with
          | .ok parsed => .ok (parsed, !keyFalsy apiKey)
          | .error _ => fallbackBranch et (!keyFalsy apiKey) := by
        unfold analyze_stripe_event
        rw [hm]
      cases htb : tryBody apiKey svc with
      | ok parsed =>
        rw [htb] at hsplit
        have hs2 : analyze_stripe_event apiKey svc e =
            .ok (parsed, !keyFalsy apiKey) := hsplit
        rw [hs2] at h
        injection h with h1
        injection h1 with ha hb
        obtain ⟨hk2, s, p, hsvc, hl, hn⟩ := tryBody_ok apiKey svc parsed htb
        rw [ha] at hn
        exact normalizeImpact_valid p r hn v hv
      | error m =>
        rw [htb] at hsplit
        have hs2 : analyze_stripe_event apiKey svc e =
            fallbackBranch et (!keyFalsy apiKey) := hsplit
        rw [hs2] at h
        exact fallbackBranch_ok_impact et (!keyFalsy apiKey) r called h v hv
  · rfl

theorem c2_impact_closed_when_present_witness :
    Json.str "medium" = .str "low" ∨ Json.str "medium" = .str "medium" ∨
      Json.str "medium" = .str "high" :=
  c2_impact_closed_when_present.1 (some "k")
    (.content "\x7b\"customer_impact_level\": \"Critical\"\x7d") (.obj [])
    (.obj [("customer_impact_level", .str "medium")]) true (.str "medium")
    rfl rfl

/-- Claim C4 counterexample: the metadata extraction runs outside the try
block, so an event whose data field is not a dict makes get raise an
AttributeError that propagates to the caller regardless of the service. -/
theorem c4_cex_extraction_propagates :
    analyze_stripe_event none .transportError (.obj [("data", Json.num 5)]) =
      .error "AttributeError" := rfl

/-- Claim C4 (corrected): for every well-shaped event (a dict whose data and
data.object fields, when present, are dicts, and whose type field, when
present, is a string) and every behaviour of the external service and of the
key configuration, analyze_stripe_event never propagates an exception: it
always returns an AnalysisResult, substituting the fallback classification on
any failure. For events outside that shape the extraction itself raises (see
the counterexample). -/
theorem c4_sole_error_boundary (apiKey : Option String) (svc : Svc) (e : Json)
    (he : wellShaped e = true) :
    isOkE (analyze_stripe_event apiKey svc e) = true := by
  have hw := he
  simp only [wellShaped, Bool.and_eq_true] at hw
  obtain ⟨hex, hty⟩ := hw
  have h1 := analyze_split apiKey svc e hex
  cases htb : tryBody apiKey svc with
  | ok p =>
    rw [htb] at h1
    have h2 : analyze_stripe_event apiKey svc e = .ok (p, !keyFalsy apiKey) := h1
    rw [h2]
    rfl
  | error m =>
    rw [htb] at h1
    have h2 : analyze_stripe_event apiKey svc e =
        fallbackBranch (eventTypeOf e) (!keyFalsy apiKey) := h1
    rw [h2, eventTypeOf_str e hty, fallbackBranch_str]
    rfl

theorem c4_sole_error_boundary_witness :
    isOkE (analyze_stripe_event (some "k") .badStructure
      (.obj [("type", .str "ping")])) = true :=
  c4_sole_error_boundary (some "k") .badStructure
    (.obj [("type", .str "ping")]) (by decide)

/-- Claim C8 (confirmed): for every extractable event, when the service
responds with a valid JSON object carrying customer_impact_level HIGH
wrapped in markdown code fences, the fences are stripped, the JSON parsed
and the impact lower-cased to high; the identical unfenced content gives the
same result, so the stripping tolerates absent markers. -/
theorem c8_fence_tolerance (apiKey : Option String) (e : Json)
    (hk : keyFalsy apiKey = false) (he : extractOk e = true) :
    analyze_stripe_event apiKey
        (.content "```json\n\x7b\"customer_impact_level\": \"HIGH\"\x7d\n```") e =
      .ok (.obj [("customer_impact_level", .str "high")], true) ∧
    analyze_stripe_event apiKey
        (.content "\x7b\"customer_impact_level\": \"HIGH\"\x7d") e =
      .ok (.obj [("customer_impact_level", .str "high")], true) ∧
    cleanContent "```json\n\x7b\"customer_impact_level\": \"HIGH\"\x7d\n```" =
      "\x7b\"customer_impact_level\": \"HIGH\"\x7d" := by
  refine ⟨?_, ?_, rfl⟩
  · have ht : tryBody apiKey
        (.content "```json\n\x7b\"customer_impact_level\": \"HIGH\"\x7d\n```") =
        .ok (.obj [("customer_impact_level", .str "high")]) := by
      unfold tryBody
      rw [hk]
      rfl
    have h1 := analyze_split apiKey
      (.content "```json\n\x7b\"customer_impact_level\": \"HIGH\"\x7d\n```") e he
    rw [ht] at h1
    have h2 : analyze_stripe_event apiKey
        (.content "```json\n\x7b\"customer_impact_level\": \"HIGH\"\x7d\n```") e =
        .ok (.obj [("customer_impact_level", .str "high")], !keyFalsy apiKey) := h1
    rw [hk] at h2
    exact h2
  · have ht : tryBody apiKey (.content "\x7b\"customer_impact_level\": \"HIGH\"\x7d") =
        .ok (.obj [("customer_impact_level", .str "high")]) := by
      unfold tryBody
      rw [hk]
      rfl
    have h1 := analyze_split apiKey
      (.content "\x7b\"customer_impact_level\": \"HIGH\"\x7d") e he
    rw [ht] at h1
    have h2 : analyze_stripe_event apiKey
        (.content "\x7b\"customer_impact_level\": \"HIGH\"\x7d") e =
        .ok (.obj [("customer_impact_level", .str "high")], !keyFalsy apiKey) := h1
    rw [hk] at h2
    exact h2

theorem c8_fence_tolerance_witness :
    analyze_stripe_event (some "k")
        (.content "```json\n\x7b\"customer_impact_level\": \"HIGH\"\x7d\n```") (.obj []) =
      .ok (.obj [("customer_impact_level", .str "high")], true) ∧
    analyze_stripe_event (some "k")
        (.content "\x7b\"customer_impact_level\": \"HIGH\"\x7d") (.obj []) =
      .ok (.obj [("customer_impact_level", .str "high")], true) ∧
    cleanContent "```json\n\x7b\"customer_impact_level\": \"HIGH\"\x7d\n```" =
      "\x7b\"customer_impact_level\": \"HIGH\"\x7d" :=
  c8_fence_tolerance (some "k") (.obj []) rfl (by decide)

/-- Claim C9 counterexample: a successful response whose content parses as a
JSON object with a non-string customer_impact_level raises inside the try
block (lower is not an attribute of an int), so the parsed object is
discarded and the fallback returned, which adds keys the parsed object never
had. -/
theorem c9_cex_nonstring_impact_falls_back :
    jsonLoads (cleanContent "\x7b\"customer_impact_level\": 5\x7d") =
      some (.obj [("customer_impact_level", .num 5)]) ∧
    analyze_stripe_event (some "k") (.content "\x7b\"customer_impact_level\": 5\x7d")
        (.obj []) = .ok (fallbackResult "unknown_type", true) ∧
    jAssoc [("customer_impact_level", Json.num 5)] "summary" = none ∧
    jLookup (fallbackResult "unknown_type") "summary" =
      some (.str "Received event unknown_type. Automated analysis unavailable.") := by
  exact ⟨rfl, rfl, rfl, rfl⟩

/-- Claim C9 (corrected): when the service responds successfully, the
cleaned content parses as a JSON object, and the value at
customer_impact_level (if present) is a string, analyze_stripe_event returns
that parsed object with at most the customer_impact_level value changed: the
key sequence is unchanged, every other key keeps its value, and the impact
key is present in the output exactly when it was present in the parsed
object. When the impact value is present but not a string the parsed object
is discarded for the fallback instead (see the counterexample). -/
theorem c9_success_frame (apiKey : Option String) (e : Json) (s : String)
    (kvs : List (String × Json))
    (hk : keyFalsy apiKey = false) (he : extractOk e = true)
    (hl : jsonLoads (cleanContent s) = some (.obj kvs))
    (hstr : ∀ v, jAssoc kvs "customer_impact_level" = some v → ∃ t, v = Json.str t) :
    ∃ rkvs, analyze_stripe_event apiKey (.content s) e = .ok (.obj rkvs, true) ∧
      keysList rkvs = keysList kvs ∧
      (∀ k2, k2 ≠ "customer_impact_level" → jAssoc rkvs k2 = jAssoc kvs k2) ∧
      (jAssoc rkvs "customer_impact_level").isSome =
        (jAssoc kvs "customer_impact_level").isSome := by
  have h1 := analyze_split apiKey (.content s) e he
  have ht0 : tryBody apiKey (.content s) = normalizeImpact (.obj kvs) := by
    have hshape : tryBody apiKey (.content s) =
        match jsonLoads (cleanContent s) with
        | none => .error "json.JSONDecodeError"
        | some parsed => normalizeImpact parsed := by
      unfold tryBody
      rw [hk]
      rfl
    rw [hshape, hl]
  rw [normalizeImpact_obj] at ht0
  cases hkk : jAssoc kvs "customer_impact_level" with
  | none =>
    rw [hkk] at ht0
    have ht1 : tryBody apiKey (.content s) = .ok (.obj kvs) := ht0
    rw [ht1] at h1
    have h2 : analyze_stripe_event apiKey (.content s) e =
        .ok (.obj kvs, !keyFalsy apiKey) := h1
    rw [hk] at h2
    exact ⟨kvs, h2, rfl, fun k2 _ => rfl, by rw [hkk]⟩
  | some v0 =>
    obtain ⟨t0, hv0⟩ := hstr v0 hkk
    subst hv0
    rw [hkk] at ht0
    by_cases hval : (pyLower t0 == "low" || pyLower t0 == "medium" || pyLower t0 == "high") = true
    · have ht1 : tryBody apiKey (.content s) =
          .ok (.obj (listSet kvs "customer_impact_level" (.str (pyLower t0)))) := by
        rw [ht0]
        simp [hval]
      rw [ht1] at h1
      have h2 : analyze_stripe_event apiKey (.content s) e =
          .ok (.obj (listSet kvs "customer_impact_level" (.str (pyLower t0))),
            !keyFalsy apiKey) := h1
      rw [hk] at h2
      refine ⟨listSet kvs "customer_impact_level" (.str (pyLower t0)), h2, ?_, ?_, ?_⟩
      · exact keysList_listSet kvs _ _ (by rw [hkk]; rfl)
      · intro k2 hne
        exact jAssoc_listSet_ne kvs _ k2 _ hne
      · rw [jAssoc_listSet_self]
        rfl
    · have ht1 : tryBody apiKey (.content s) =
          .ok (.obj (listSet (listSet kvs "customer_impact_level" (.str (pyLower t0)))
            "customer_impact_level" (.str "medium"))) := by
        rw [ht0]
        simp [hval]
      rw [ht1] at h1
      have h2 : analyze_stripe_event apiKey (.content s) e =
          .ok (.obj (listSet (listSet kvs "customer_impact_level" (.str (pyLower t0)))
            "customer_impact_level" (.str "medium")), !keyFalsy apiKey) := h1
      rw [hk] at h2
      refine ⟨_, h2, ?_, ?_, ?_⟩
      · rw [keysList_listSet _ _ _ (by rw [jAssoc_listSet_self]; rfl),
          keysList_listSet kvs _ _ (by rw [hkk]; rfl)]
      · intro k2 hne
        rw [jAssoc_listSet_ne _ _ k2 _ hne, jAssoc_listSet_ne kvs _ k2 _ hne]
      · rw [jAssoc_listSet_self]
        rfl

theorem c9_success_frame_witness :
    ∃ rkvs, analyze_stripe_event (some "k")
        (.content "\x7b\"summary\": \"ok\", \"customer_impact_level\": \"HIGH\"\x7d")
        (.obj []) = .ok (.obj rkvs, true) ∧
      keysList rkvs = keysList [("summary", Json.str "ok"),
        ("customer_impact_level", Json.str "HIGH")] ∧
      (∀ k2, k2 ≠ "customer_impact_level" →
        jAssoc rkvs k2 = jAssoc [("summary", Json.str "ok"),
          ("customer_impact_level", Json.str "HIGH")] k2) ∧
      (jAssoc rkvs "customer_impact_level").isSome =
        (jAssoc [("summary", Json.str "ok"),
          ("customer_impact_level", Json.str "HIGH")] "customer_impact_level").isSome :=
  c9_success_frame (some "k") (.obj [])
    "\x7b\"summary\": \"ok\", \"customer_impact_level\": \"HIGH\"\x7d"
    [("summary", Json.str "ok"), ("customer_impact_level", Json.str "HIGH")]
    rfl (by decide) rfl
    (fun v hv => ⟨"HIGH", by
      have hv2 : some (Json.str "HIGH") = some v := hv
      injection hv2 with hv3
      exact hv3.symm⟩)

/-- Claim C10 (confirmed): the cleanup replaces every occurrence of the
fence markers anywhere in the content, not only wrapping ones: a success
response whose JSON string value contains triple backticks has them deleted
from the field value of the returned object. -/
theorem c10_global_fence_removal :
    cleanContent "\x7b\"summary\": \"use ``` with care\", \"customer_impact_level\": \"low\"\x7d" =
      "\x7b\"summary\": \"use  with care\", \"customer_impact_level\": \"low\"\x7d" ∧
    analyze_stripe_event (some "k")
        (.content "\x7b\"summary\": \"use ``` with care\", \"customer_impact_level\": \"low\"\x7d")
        (.obj []) =
      .ok (.obj [("summary", .str "use  with care"),
        ("customer_impact_level", .str "low")], true) := ⟨rfl, rfl⟩

/-- Claim C3 counterexample: extraction is not total on every object: a data
field that is present but not a dict (here None) makes the chained get raise
an AttributeError, which propagates out of analyze_stripe_event because the
extraction runs before the try block. -/
theorem c3_cex_data_null_raises :
    extractMeta (.obj [("data", Json.null)]) = .error "AttributeError" ∧
    analyze_stripe_event (some "k") .httpError (.obj [("data", Json.null)]) =
      .error "AttributeError" := ⟨rfl, rfl⟩

/-- Claim C3 (corrected): for every event object whose data and data.object
fields, when present, are dicts, metadata extraction and prompt construction
never raise; a missing type, data or data.object yields the defaults
unknown_type, the empty dict and unknown_id; the user prompt always embeds
the full event serialized as JSON, which for the empty event is the
empty-object text, so the payload slot of the prompt shows an empty-object
placeholder exactly when the whole event is empty (for an event with a wrong
shape at a nested level the extraction raises instead, see the
counterexample). -/
theorem c3_total_extraction_amended :
    (∀ e : Json, extractOk e = true →
      extractMeta e = .ok (eventTypeOf e, dataOf e, dataObjectOf e, objectIdOf e)) ∧
    (∀ kvs : List (String × Json), jAssoc kvs "type" = none →
      eventTypeOf (.obj kvs) = .str "unknown_type") ∧
    (∀ kvs : List (String × Json), jAssoc kvs "data" = none →
      dataOf (.obj kvs) = .obj [] ∧ dataObjectOf (.obj kvs) = .obj [] ∧
        objectIdOf (.obj kvs) = .str "unknown_id") ∧
    (∀ (et : String) (e : Json), pySubstr (jsonDumps 0 e) (userPrompt et e) = true) ∧
    pySubstr "Raw Payload:\n\x7b\x7d\n" (userPrompt "unknown_type" (.obj [])) = true := by
  refine ⟨extractMeta_ok, ?_, ?_, ?_, ?_⟩
  · intro kvs h
    simp [eventTypeOf, jGetD, h]
  · intro kvs h
    simp [dataOf, dataObjectOf, objectIdOf, jGetD, h, jAssoc]
  · intro et e
    unfold pySubstr userPrompt
    simp only [String.data_append, List.append_assoc]
    apply chContains_append_left
    apply chContains_append_left
    apply chContains_append_left
    exact chContains_here _ _
  · simp only [userPrompt, jsonDumps]
    decide

theorem c3_total_extraction_witness :
    extractMeta (.obj []) = .ok (eventTypeOf (.obj []), dataOf (.obj []),
      dataObjectOf (.obj []), objectIdOf (.obj [])) ∧
    eventTypeOf (.obj []) = .str "unknown_type" ∧
    pySubstr (jsonDumps 0 (.obj [("type", Json.str "ping")]))
      (userPrompt "ping" (.obj [("type", Json.str "ping")])) = true :=
  ⟨c3_total_extraction_amended.1 (.obj []) (by decide),
   c3_total_extraction_amended.2.1 [] rfl,
   c3_total_extraction_amended.2.2.2.1 "ping" (.obj [("type", Json.str "ping")])⟩
